import Mathlib

/-!
Verification of the request-engine core (HTTP/1 runner, TLS runner, executor)
against its natural-language specification.  Definitions are shallow embeddings
of the Rust source: `src/src/exec/http1.rs`, `src/src/exec/http.rs`,
`src/src/exec/tls.rs` and `src/ql/src/exec/mod.rs`.  Bytes are modelled as
lists of naturals (byte values 0..255), monotonic instants as naturals, and
`std::time::Instant` subtraction as truncated (saturating) subtraction on `Nat`.
-/

set_option maxRecDepth 100000

namespace ApiVuln

/-- Byte strings on the wire: lists of byte values. -/
abbrev Bytes := List Nat

/-- Convert an ASCII string literal into its byte list (for concrete inputs). -/
def bytesOf (s : String) : Bytes := s.toList.map Char.toNat

/-- ASCII lower-casing of one byte, for case-insensitive header-name tests. -/
def lowerByte (b : Nat) : Nat := if 65 ≤ b ∧ b ≤ 90 then b + 32 else b

/-- ASCII lower-casing of a byte string. -/
def bytesLower (bs : Bytes) : Bytes := bs.map lowerByte

/-- `bytesBegins pat bs` holds when `pat` is an initial segment of `bs`. -/
def bytesBegins : Bytes → Bytes → Bool
  | [], _ => true
  | _ :: _, [] => false
  | a :: as, b :: bs => a == b && bytesBegins as bs

/-- `containsSub pat bs`: `pat` occurs as a contiguous substring of `bs`. -/
def containsSub (pat : Bytes) (bs : Bytes) : Bool :=
  (List.range (bs.length + 1)).any fun i => bytesBegins pat (bs.drop i)

/-! ## The HTTP/1 plan and `Http1Runner::compute_header`
    (src/src/exec/http1.rs lines 230-271) -/

/-- The `add_content_length` policy flag carried by the plan
    (`HttpPlanOutput.add_content_length`, forwarded into `Http1PlanOutput`
    in src/src/exec/http.rs line 153). -/
inductive AddContentLength
  | never
  | always
  | auto
  deriving DecidableEq, Repr

/-- Shallow embedding of `Http1PlanOutput`: the fully resolved HTTP/1 plan
    fields that `compute_header` consumes.  `urlPath`/`urlQuery` stand for
    `plan.url.path()` / `plan.url.query()`. -/
structure Http1PlanOutput where
  method : Option Bytes
  urlPath : Bytes
  urlQuery : Option Bytes
  versionString : Option Bytes
  addContentLength : AddContentLength
  headers : List (Bytes × Bytes)
  body : Bytes
  deriving DecidableEq, Repr

/-- Embedding of `Http1Runner::compute_header` (http1.rs lines 230-271):
    request line (method, SP, path, optional `?query`, SP, version, CRLF),
    then each declared header as `name: value CRLF` in order, then the
    terminating CRLF.  The function reads no other plan field; in particular
    it never consults `add_content_length` and never appends a
    `Content-Length` header. -/
def computeHeader (plan : Http1PlanOutput) : Bytes :=
  (plan.method.getD [])
    ++ [32]
    ++ plan.urlPath
    ++ (match plan.urlQuery with
        | some q => [63] ++ q
        | none => [])
    ++ [32]
    ++ (plan.versionString.getD [])
    ++ [13, 10]
    ++ (plan.headers.map fun kv => kv.1 ++ [58, 32] ++ kv.2 ++ [13, 10]).flatten
    ++ [13, 10]

/-- Concrete plan for exercising the content-length policy: a `POST /` with
    body `x=1`, a single `Host` header, and policy `always`
    (spec scenario 3 with the strongest policy). -/
def c1Plan : Http1PlanOutput :=
  { method := bytesOf "POST"
    urlPath := bytesOf "/"
    urlQuery := none
    versionString := bytesOf "HTTP/1.1"
    addContentLength := .always
    headers := [(bytesOf "Host", bytesOf "h")]
    body := bytesOf "x=1" }

/-- `compute_header` is literally independent of the policy flag: the field is
    never read. -/
theorem computeHeader_ignores_policy (p : Http1PlanOutput) (pol : AddContentLength) :
    computeHeader { p with addContentLength := pol } = computeHeader p := rfl

/-- **C1.** The claim states that the constructed request header obeys the
    `add_content_length` policy (`always` appends `Content-Length: <len(body)>`
    unconditionally, `auto` appends it for a non-empty body without a
    user-supplied `content-length` header, `never` never emits it).
    The code violates this: `compute_header` never consults the policy and
    never emits a `Content-Length` header.  Evaluated at the failing input: a
    `POST /` with body `x=1`, headers `[(Host, h)]` and policy `always`, the
    produced header bytes contain no case-insensitive `content-length`
    substring at all, and the output is byte-identical under policy `never`. -/
theorem c1_content_length_policy_never_applied :
    c1Plan.addContentLength = .always ∧
    c1Plan.body ≠ [] ∧
    containsSub (bytesOf "content-length") (bytesLower (computeHeader c1Plan)) = false ∧
    computeHeader c1Plan = computeHeader { c1Plan with addContentLength := .never } :=
  ⟨rfl, by decide, by decide, rfl⟩

/-! ## `Http1Runner` write path (src/src/exec/http1.rs lines 150-169, 376-396,
    534-550) -/

/-- Result of `Pin::new(transport).poll_write(cx, buf)` as observed by
    `Http1Runner::poll_write` (only readiness and the accepted count matter). -/
inductive WritePoll
  | pending
  | readyOk (n : Nat)
  | readyErr
  deriving DecidableEq, Repr

/-- The pieces of `Http1Runner` state that `poll_write` touches:
    `req_body_start_time.is_some()` and `req_body_buf`. -/
structure WriteSt where
  reqBodyStartSet : Bool
  reqBodyBuf : Bytes
  deriving DecidableEq, Repr

/-- Embedding of `Http1Runner::poll_write` (http1.rs lines 151-169), accepted
    in both `SendingHeader` and `SendingBody` states.  The code checks only
    `poll.is_ready()`: whenever the inner poll is ready — with `Ok(n)` for any
    `n`, or with `Err` — it stamps `req_body_start_time` (if unset) and appends
    the whole caller buffer `buf` to `req_body_buf`, regardless of how many
    bytes were actually accepted. -/
def pollWrite (st : WriteSt) (buf : Bytes) (p : WritePoll) : WriteSt :=
  match p with
  | .pending => st
  | _ => { reqBodyStartSet := true, reqBodyBuf := st.reqBodyBuf ++ buf }

/-- `Http1Runner::start` (http1.rs line 396) sends the computed header with
    `self.write_all_buf(&mut header)`, i.e. through `Http1Runner::poll_write`
    itself while in state `SendingHeader` — so the header bytes flow through
    the same recording path as body bytes. -/
def startWriteHeader (st : WriteSt) (header : Bytes) (p : WritePoll) : WriteSt :=
  pollWrite st header p

/-- `Http1Runner::complete` (http1.rs line 549): the finished output's
    `request.body` is exactly the accumulated `req_body_buf`. -/
def completeRequestBody (st : WriteSt) : Bytes := st.reqBodyBuf

/-- Fresh write-path state from `Http1Runner::new` (http1.rs lines 216-224). -/
def initWriteSt : WriteSt := { reqBodyStartSet := false, reqBodyBuf := [] }

/-- Header of the failing input for C2: the `GET /` request header computed
    for a plan with no body. -/
def c2Header : Bytes := bytesOf "GET / HTTP/1.1\r\n\r\n"

/-- **C2.** The claim states that `request.body` in the output equals exactly
    the bytes the layer above successfully wrote, with the request header
    excluded and failed or partially accepted writes not recorded.  The code
    violates all three parts, evaluated here at concrete inputs:
    (1) `start` sends the header through `poll_write`, so after a plain
    `GET /` with empty body, `request.body` equals the full header bytes
    rather than `[]`; (2) a write whose inner poll is `Ready(Err)` is still
    recorded; (3) a write accepted only partially (`Ready(Ok 2)` of a 3-byte
    buffer, then re-driven with the remaining byte by `write_all`) records
    `buf ++ buf.drop 2`, duplicating the tail. -/
theorem c2_request_body_records_header_and_unsuccessful_writes :
    completeRequestBody (startWriteHeader initWriteSt c2Header (.readyOk c2Header.length))
      = c2Header ∧
    c2Header ≠ [] ∧
    completeRequestBody (pollWrite initWriteSt (bytesOf "x=1") .readyErr) = bytesOf "x=1" ∧
    completeRequestBody
        (pollWrite (pollWrite initWriteSt (bytesOf "x=1") (.readyOk 2))
          ((bytesOf "x=1").drop 2) (.readyOk 1))
      = bytesOf "x=1" ++ (bytesOf "x=1").drop 2 :=
  ⟨by decide, by decide, by decide, by decide⟩

/-! ## `Http1Runner` read path routing (src/src/exec/http1.rs lines 71-148) -/

/-- The states of `Http1Runner` (http1.rs lines 39-69). -/
inductive RState
  | pendingSt
  | startFailed
  | sendingHeader
  | sendingBody
  | receivingHeader
  | receivingBody
  | completeSt
  | invalid
  deriving DecidableEq, Repr

/-- Which branch of the `match` in `Http1Runner::poll_read`
    (http1.rs lines 85-146) a state selects:
    `recordToBody` is the arm at lines 86-93 (delegate the read and append the
    filled bytes to `resp_body_buf`, no parsing), `parseHeaderLoop` is the arm
    at lines 94-144 (accumulate into `resp_header_buf` and call
    `receive_header`), and `panicked` is the catch-all `_ => panic!()`. -/
inductive ReadAction
  | recordToBody
  | parseHeaderLoop
  | panicked
  deriving DecidableEq, Repr

/-- The state dispatch of `Http1Runner::poll_read`: the `ReceivingHeader`
    pattern selects the record-to-body arm and the `ReceivingBody` pattern
    selects the header-parsing arm (http1.rs lines 86 and 94-99). -/
def pollReadAction : RState → ReadAction
  | .receivingHeader => .recordToBody
  | .receivingBody => .parseHeaderLoop
  | _ => .panicked

/-- The two receive-side buffers of `Http1Runner`. -/
structure RecvBufs where
  respHeaderBuf : Bytes
  respBodyBuf : Bytes
  deriving DecidableEq, Repr

/-- Effect of the `ReceivingHeader` arm of `poll_read` (http1.rs lines 86-93)
    on a successful inner read that fills `chunk`: the bytes are appended to
    `resp_body_buf` and handed to the caller unchanged; `resp_header_buf` is
    untouched and no parser runs. -/
def pollReadReceivingHeader (bufs : RecvBufs) (chunk : Bytes) : RecvBufs × Bytes :=
  ({ bufs with respBodyBuf := bufs.respBodyBuf ++ chunk }, chunk)

/-- The state transition attempted by `Http1Runner::receive_header` once the
    parser reports `Complete` (http1.rs lines 310-318): it takes `self.state`
    — which during `poll_read` is `Invalid`, because the live state was moved
    into a scopeguard at lines 78-84 — and requires it to be
    `ReceivingHeader`, panicking otherwise.  `none` models the panic. -/
def receiveHeaderTransition : RState → Option RState
  | .receivingHeader => some .receivingBody
  | _ => none

/-- Fresh receive buffers from `Http1Runner::new`. -/
def initRecvBufs : RecvBufs := { respHeaderBuf := [], respBodyBuf := [] }

/-- A complete response header arriving in one read. -/
def c3Chunk : Bytes := bytesOf "HTTP/1.1 200 OK\r\n\r\n"

/-- **C3.** The claim states that in state `ReceivingHeader` each successful
    read appends the bytes to the header accumulator and invokes the parser,
    and on `Complete` transitions to `ReceivingBody` and yields the remaining
    body bytes.  The code has the two match arms swapped: in
    `ReceivingHeader`, the read bytes — here a full `HTTP/1.1 200 OK` header —
    are appended to `resp_body_buf` and returned verbatim to the caller, the
    header accumulator stays empty and the parser is never invoked (parsing
    happens only in the `ReceivingBody` arm); moreover the parser-completion
    path reads the moved-out state as `Invalid` and panics. -/
theorem c3_receiving_header_bytes_misrouted_to_body :
    pollReadAction .receivingHeader = .recordToBody ∧
    pollReadAction .receivingBody = .parseHeaderLoop ∧
    (pollReadReceivingHeader initRecvBufs c3Chunk).1.respHeaderBuf = [] ∧
    (pollReadReceivingHeader initRecvBufs c3Chunk).1.respBodyBuf = c3Chunk ∧
    (pollReadReceivingHeader initRecvBufs c3Chunk).2 = c3Chunk ∧
    receiveHeaderTransition .invalid = none :=
  ⟨rfl, rfl, by decide, by decide, by decide, rfl⟩

/-! ## `Executor` (src/ql/src/exec/mod.rs lines 12-46)

    Step outputs are abstracted to `Nat` identifiers; per-step execution is a
    function `exec : Nat → Except String Nat` giving each step index its
    result (`http::execute`/`tcp::execute` are collaborators outside this
    component). -/

/-- A plan step: only its optional name matters to the executor's control
    flow (mod.rs line 39). -/
structure Step where
  name : Option String
  deriving DecidableEq, Repr

/-- `Executor` state: `current : Option<usize>` cursor and the name→output
    map (`HashMap`, modelled as an association list where insert replaces an
    existing key). -/
structure ExecSt where
  current : Option Nat
  outputs : List (String × Nat)
  deriving DecidableEq, Repr

/-- `HashMap::insert`: replace the value under an existing key, otherwise add
    the entry. -/
def mapInsert (m : List (String × Nat)) (k : String) (v : Nat) : List (String × Nat) :=
  if m.any (fun kv => kv.1 = k) then
    m.map fun kv => if kv.1 = k then (k, v) else kv
  else
    m ++ [(k, v)]

/-- `Executor::new` (mod.rs lines 19-25): the cursor is
    `plan.steps.first().map(|_| 0)` — `none` exactly when the plan is empty. -/
def executorNew (steps : List Step) : ExecSt :=
  { current := if steps.isEmpty then none else some 0, outputs := [] }

/-- Outcome of one `Executor::next()` call. -/
inductive NextResult
  | done                       -- `Err(Error::Done)` (mod.rs line 29)
  | panicked                   -- `self.plan.steps[*current]` out of bounds (line 31)
  | stepFailed (msg : String)  -- the `?` on `execute(..)` propagated (lines 36-37)
  | ok (out : Nat)             -- `Ok(out)` (lines 40, 44)
  deriving DecidableEq, Repr

/-- Embedding of `Executor::next` (mod.rs lines 27-45):
    * cursor `none` → `Err(Error::Done)`;
    * `self.plan.steps[*current]` panics when the index is out of bounds;
    * a failing `execute` is propagated by `?` with no state change;
    * an anonymous step returns `Ok(out)` early — before the cursor advance —
      leaving the state unchanged (lines 39-41);
    * a named step stores the output and advances the cursor (lines 42-44). -/
def executorNext (steps : List Step) (exec : Nat → Except String Nat) (s : ExecSt) :
    NextResult × ExecSt :=
  match s.current with
  | none => (.done, s)
  | some cur =>
    match steps[cur]? with
    | none => (.panicked, s)
    | some step =>
      match exec cur with
      | .error e => (.stepFailed e, s)
      | .ok out =>
        match step.name with
        | none => (.ok out, s)
        | some name =>
          (.ok out, { current := some (cur + 1), outputs := mapInsert s.outputs name out })

/-- One-step plan with a named step. -/
def c4NamedPlan : List Step := [{ name := some "a" }]

/-- One-step plan with an anonymous step. -/
def c4AnonPlan : List Step := [{ name := none }]

/-- Step execution that always succeeds with output `7`. -/
def c4Exec : Nat → Except String Nat := fun _ => .ok 7

/-- **C4.** The claim states that for an `n`-step plan, `n` calls to `next()`
    execute the steps in order — each call, named or anonymous, advancing the
    cursor by one — and the `(n+1)`-th call fails with error kind `Done`.
    The code violates both parts, shown here on one-step plans: for a named
    step the first call succeeds and advances, but the second call indexes
    `steps[1]` out of bounds (a panic), not `Err(Done)` — the cursor is never
    set back to `None`, so `Done` is only reachable for an empty plan; and for
    an anonymous step `next()` returns before the cursor advance, so the
    cursor stays at `0` and the same step would be executed again. -/
theorem c4_next_anonymous_no_advance_and_done_unreachable :
    executorNext c4NamedPlan c4Exec (executorNew c4NamedPlan)
      = (.ok 7, { current := some 1, outputs := [("a", 7)] }) ∧
    (executorNext c4NamedPlan c4Exec { current := some 1, outputs := [("a", 7)] }).1
      = .panicked ∧
    executorNext c4AnonPlan c4Exec (executorNew c4AnonPlan)
      = (.ok 7, { current := some 0, outputs := [] }) ∧
    (executorNew ([] : List Step)).current = none ∧
    (executorNext [] c4Exec (executorNew [])).1 = .done :=
  ⟨by decide, by decide, by decide, by decide, by decide⟩

/-- Step execution that fails with an io error message. -/
def c5Exec : Nat → Except String Nat := fun _ => .error "io"

/-- **C5 counterexample.** The claim states that when a step's execution
    fails, `next()` still yields that step's output with an `errors[]` entry,
    stores it when named, and advances the cursor.  At the concrete input — a
    one-step plan with named step `a` whose execution fails with `"io"` — the
    call instead returns the propagated error, the outputs map stays empty and
    the cursor stays at `0`. -/
theorem c5_failing_step_propagates_and_does_not_advance :
    executorNext c4NamedPlan c5Exec (executorNew c4NamedPlan)
      = (.stepFailed "io", { current := some 0, outputs := [] }) :=
  by decide

/-- **C5 (amended).** If the current step's execution fails, `Executor::next()`
    propagates the error to its caller via `?`: no output is stored, and the
    cursor does not advance — the executor state is returned unchanged. -/
theorem c5_failing_step_leaves_state_unchanged
    (steps : List Step) (exec : Nat → Except String Nat) (s : ExecSt)
    (cur : Nat) (step : Step) (e : String)
    (hcur : s.current = some cur) (hstep : steps[cur]? = some step)
    (hexec : exec cur = .error e) :
    executorNext steps exec s = (.stepFailed e, s) := by
  unfold executorNext
  rw [hcur]
  simp only [hstep, hexec]

/-- Witness for `c5_failing_step_leaves_state_unchanged` at the concrete
    one-step named plan with a failing execution. -/
theorem c5_failing_step_leaves_state_unchanged_witness :
    executorNext c4NamedPlan c5Exec (executorNew c4NamedPlan)
      = (.stepFailed "io", executorNew c4NamedPlan) :=
  c5_failing_step_leaves_state_unchanged c4NamedPlan c5Exec (executorNew c4NamedPlan)
    0 { name := some "a" } "io" (by decide) (by decide) rfl

/-! ## The permissive response-header parser
    (`httparse::Response::parse` with a 16-slot header array, as invoked by
    `Http1Runner::receive_header`, src/src/exec/http1.rs lines 273-345)

    The parser is a dependency, so its observable behaviour is embedded here:
    fields are filled incrementally — on a `Partial` result, `version`,
    `code`, `reason` and the already-parsed header prefix are set; a 17th
    header field overflows the 16-slot array with `TooManyHeaders`. -/

/-- `httparse::Error` cases reachable from response parsing. -/
inductive HError
  | version
  | status
  | headerName
  | headerValue
  | newLine
  | tooManyHeaders
  deriving DecidableEq, Repr

/-- The incrementally filled fields of `httparse::Response`. -/
structure HResp where
  version : Option Nat := none
  code : Option Nat := none
  reason : Option Bytes := none
  headers : List (Bytes × Bytes) := []
  deriving DecidableEq, Repr

/-- `httparse::Status`: the parse either needs more bytes or is complete with
    the byte offset where the body starts. -/
inductive HStatus
  | needMore
  | doneAt (bodyStart : Nat)
  deriving DecidableEq, Repr

/-- ASCII digit test. -/
def isDigitB (b : Nat) : Bool := 48 ≤ b && b ≤ 57

/-- httparse's header-name token bytes: ASCII letters, digits, and
    `!#$%&'*+-.^_\x60|~`. -/
def isTokenByte (b : Nat) : Bool :=
  (48 ≤ b && b ≤ 57) || (65 ≤ b && b ≤ 90) || (97 ≤ b && b ≤ 122) ||
  b == 33 || b == 35 || b == 36 || b == 37 || b == 38 || b == 39 || b == 42 ||
  b == 43 || b == 45 || b == 46 || b == 94 || b == 95 || b == 96 || b == 124 || b == 126

/-- Bytes permitted in a reason phrase: horizontal tab or any byte that is
    neither a C0 control nor DEL. -/
def isReasonByte (b : Nat) : Bool := b == 9 || (32 ≤ b && b != 127)

/-- Bytes permitted in a header value (same permissive class). -/
def isValueByte (b : Nat) : Bool := b == 9 || (32 ≤ b && b != 127)

/-- The fixed bytes `HTTP/1.` opening a status line. -/
def versionBytes : Bytes := [72, 84, 84, 80, 47, 49, 46]

/-- Parse the HTTP version: `HTTP/1.0` or `HTTP/1.1`.  `ok none` is a partial
    parse (the buffer is a proper prefix of a valid version), `ok (some
    (v, rest))` yields the minor version and the remaining bytes. -/
def parseVersion (bs : Bytes) : Except HError (Option (Nat × Bytes)) :=
  if bs.length < 8 then
    if bytesBegins bs (versionBytes ++ [48]) || bytesBegins bs (versionBytes ++ [49]) then
      .ok none
    else
      .error .version
  else
    match bs with
    | b0 :: b1 :: b2 :: b3 :: b4 :: b5 :: b6 :: b7 :: rest =>
      if [b0, b1, b2, b3, b4, b5, b6] = versionBytes then
        if b7 = 48 then .ok (some (0, rest))
        else if b7 = 49 then .ok (some (1, rest))
        else .error .version
      else .error .version
    | _ => .error .version

/-- Parse the three-digit status code; partial when fewer than three bytes
    remain and all of them are digits. -/
def parseCode (bs : Bytes) : Except HError (Option (Nat × Bytes)) :=
  match bs with
  | d0 :: d1 :: d2 :: rest =>
    if isDigitB d0 && isDigitB d1 && isDigitB d2 then
      .ok (some ((d0 - 48) * 100 + (d1 - 48) * 10 + (d2 - 48), rest))
    else
      .error .status
  | short =>
    if short.all isDigitB then .ok none else .error .status

/-- Parse the reason phrase up to (and consuming) the line ending; accepts
    both CRLF and a bare LF. -/
def parseReasonAux (acc : Bytes) : Bytes → Except HError (Option (Bytes × Bytes))
  | [] => .ok none
  | 13 :: rest =>
    match rest with
    | [] => .ok none
    | 10 :: r2 => .ok (some (acc, r2))
    | _ => .error .status
  | 10 :: rest => .ok (some (acc, rest))
  | b :: rest =>
    if isReasonByte b then parseReasonAux (acc ++ [b]) rest else .error .status

/-- Parse a header name up to the `:` separator; an empty name is invalid. -/
def parseHeaderNameAux (acc : Bytes) : Bytes → Except HError (Option (Bytes × Bytes))
  | [] => .ok none
  | 58 :: rest => if acc = [] then .error .headerName else .ok (some (acc, rest))
  | b :: rest =>
    if isTokenByte b then parseHeaderNameAux (acc ++ [b]) rest else .error .headerName

/-- Collect a header value up to (and consuming) the line ending. -/
def parseHeaderValueAux (acc : Bytes) : Bytes → Except HError (Option (Bytes × Bytes))
  | [] => .ok none
  | 13 :: rest =>
    match rest with
    | [] => .ok none
    | 10 :: r2 => .ok (some (acc, r2))
    | _ => .error .headerValue
  | 10 :: rest => .ok (some (acc, rest))
  | b :: rest =>
    if isValueByte b then parseHeaderValueAux (acc ++ [b]) rest else .error .headerValue

/-- Parse a header value: leading spaces and tabs are skipped, then the value
    runs to the line ending. -/
def parseHeaderValue : Bytes → Except HError (Option (Bytes × Bytes))
  | 32 :: rest => parseHeaderValue rest
  | 9 :: rest => parseHeaderValue rest
  | bs => parseHeaderValueAux [] bs

/-- The header loop of `parse_headers_iter` with a 16-slot array: an empty
    line ends the headers (returning the remaining bytes); otherwise a new
    header field begins, which overflows with `TooManyHeaders` when all 16
    slots are taken.  On a partial parse the already-completed header prefix
    is kept (the in-progress field is not).  `fuel` bounds the recursion and
    is chosen larger than the buffer length at the call site. -/
def parseHeadersLoop : Nat → List (Bytes × Bytes) → Bytes →
    Except HError (List (Bytes × Bytes) × Option Bytes)
  | 0, acc, _ => .ok (acc, none)
  | _ + 1, acc, [] => .ok (acc, none)
  | _ + 1, acc, 13 :: rest =>
    (match rest with
     | [] => .ok (acc, none)
     | 10 :: r2 => .ok (acc, some r2)
     | _ => .error .newLine)
  | _ + 1, acc, 10 :: rest => .ok (acc, some rest)
  | fuel + 1, acc, bs =>
    if 16 ≤ acc.length then .error .tooManyHeaders
    else
      match parseHeaderNameAux [] bs with
      | .error e => .error e
      | .ok none => .ok (acc, none)
      | .ok (some (name, afterColon)) =>
        match parseHeaderValue afterColon with
        | .error e => .error e
        | .ok none => .ok (acc, none)
        | .ok (some (value, rest2)) => parseHeadersLoop fuel (acc ++ [(name, value)]) rest2

/-- Embedding of `httparse::Response::parse` on the accumulated buffer:
    status line (`HTTP/1.x SP code [SP reason] CRLF`) followed by header
    fields and the empty line.  Returns the fields parsed so far together
    with `needMore`, or the fields and the body-start offset on completion;
    malformed input yields the `httparse` error. -/
def httparseResponse (buf : Bytes) : Except HError (HResp × HStatus) :=
  match parseVersion buf with
  | .error e => .error e
  | .ok none => .ok ({}, .needMore)
  | .ok (some (v, r1)) =>
    let st0 : HResp := { version := some v }
    match r1 with
    | [] => .ok (st0, .needMore)
    | 32 :: r2 =>
      match parseCode r2 with
      | .error e => .error e
      | .ok none => .ok (st0, .needMore)
      | .ok (some (c, r3)) =>
        let st1 : HResp := { st0 with code := some c }
        let finishHeaders (reason : Bytes) (r5 : Bytes) :
            Except HError (HResp × HStatus) :=
          let st2 : HResp := { st1 with reason := some reason }
          match parseHeadersLoop (r5.length + 1) [] r5 with
          | .error e => .error e
          | .ok (hs, none) => .ok ({ st2 with headers := hs }, .needMore)
          | .ok (hs, some rest) =>
            .ok ({ st2 with headers := hs }, .doneAt (buf.length - rest.length))
        match r3 with
        | [] => .ok (st1, .needMore)
        | 32 :: r4 =>
          (match parseReasonAux [] r4 with
           | .error e => .error e
           | .ok none => .ok (st1, .needMore)
           | .ok (some (reason, r5)) => finishHeaders reason r5)
        | 13 :: r4 =>
          (match r4 with
           | [] => .ok (st1, .needMore)
           | 10 :: r5 => finishHeaders [] r5
           | _ => .error .status)
        | 10 :: r4 => finishHeaders [] r4
        | _ => .error .status
    | _ => .error .version

/-- Render `format!("HTTP/1.{}", v)`. -/
def fmtVersion (v : Nat) : Bytes := versionBytes ++ [48 + v]

/-- The response record assembled by `Http1Runner::receive_header`
    (http1.rs lines 282-307): `protocol`, `status_code`, `status_reason` come
    straight from the parser's fields, and `headers` is populated whenever
    `reason` is set — including on a partial parse. -/
structure RecvOut where
  protocol : Option Bytes
  statusCode : Option Nat
  headers : Option (List (Bytes × Bytes))
  statusReason : Option Bytes
  deriving DecidableEq, Repr

/-- What a `receive_header` call reports back to `poll_read`. -/
inductive RecvResult
  | pendingMore               -- `Poll::Pending` on `Status::Partial`
  | yielded (remaining : Bytes)  -- `Poll::Ready(Ok(..))`: body bytes after the header
  | ioError (e : HError)      -- `Poll::Ready(Err(..))` wrapping the parser error
  | panicked                  -- the `Complete` path's state check failed
  deriving DecidableEq, Repr

/-- Embedding of `Http1Runner::receive_header` (http1.rs lines 273-345):
    parse the accumulated `buf`; on a parser error return it as an io error
    leaving `out.response` unchanged; otherwise assign `out.response`
    (overwriting any previous value) *before* inspecting the status — so a
    `Partial` result still publishes whatever fields were parsed.  On
    `Complete`, the current `self.state` must be `ReceivingHeader` or the
    function panics; on success the bytes from `body_start` onward are
    yielded. -/
def receiveHeader (st : RState) (prevResp : Option RecvOut) (buf : Bytes) :
    Option RecvOut × RecvResult :=
  match httparseResponse buf with
  | .error e => (prevResp, .ioError e)
  | .ok (r, status) =>
    let out : RecvOut :=
      { protocol := r.version.map fmtVersion
        statusCode := r.code
        headers := r.reason.map fun _ => r.headers
        statusReason := r.reason }
    match status with
    | .needMore => (some out, .pendingMore)
    | .doneAt bodyStart =>
      match receiveHeaderTransition st with
      | some _ => (some out, .yielded (buf.drop bodyStart))
      | none => (some out, .panicked)

/-- An incomplete response header: the status line and one full header field
    have arrived, but not the terminating empty line. -/
def c6Buf : Bytes := bytesOf "HTTP/1.1 200 OK\r\nFoo: bar\r\n"

/-- **C6.** The claim states that the response record's `headers` and
    `status` fields are present only after the header has been fully parsed,
    and that no status code or header set derived from a partial parse is
    ever exposed.  The code violates this: `receive_header` assigns
    `out.response` *before* checking whether the parse was `Partial`.  At the
    concrete input — accumulator `"HTTP/1.1 200 OK\r\nFoo: bar\r\n"`, which
    parses as `Partial` — the call reports `Pending` (header not complete)
    yet publishes a response with `status_code = 200` and
    `headers = [(Foo, bar)]`; `complete()` preserves that record into the
    step output (it only adds body and durations), so a subsequent EOF error
    leaves the partial status and headers in the output. -/
theorem c6_partial_parse_publishes_status_and_headers :
    receiveHeader .receivingHeader none c6Buf =
      (some { protocol := some (bytesOf "HTTP/1.1")
              statusCode := some 200
              headers := some [(bytesOf "Foo", bytesOf "bar")]
              statusReason := some (bytesOf "OK") },
       .pendingMore) := by
  rfl

/-- A response whose header block carries 17 header fields: one more than the
    16-slot `httparse` header array used by `receive_header`
    (http1.rs line 276). -/
def c9FullBuf : Bytes :=
  bytesOf "HTTP/1.1 200 OK\r\n"
    ++ (List.replicate 17 (bytesOf "A: 1\r\n")).flatten
    ++ bytesOf "\r\n"

/-- A prefix of `c9FullBuf` as it might arrive in a first read: the status
    line and the first of the 17 header fields. -/
def c9PartialBuf : Bytes := bytesOf "HTTP/1.1 200 OK\r\nA: 1\r\n"

/-- The response record published by the partial parse of `c9PartialBuf`. -/
def c9PartialResp : RecvOut :=
  { protocol := some (bytesOf "HTTP/1.1")
    statusCode := some 200
    headers := some [(bytesOf "A", bytesOf "1")]
    statusReason := some (bytesOf "OK") }

/-- **C9 counterexample.** The claim states that a response with more than 16
    header fields makes the step end with an error *and* `response.headers`
    absent.  The error part holds, but the absence part is false when the
    header block arrives across several reads: here the first read delivers
    `c9PartialBuf` (a prefix of the 17-header response `c9FullBuf`), whose
    partial parse already publishes `headers = [(A, 1)]`; when the rest
    arrives, the parse of the full accumulator fails with `TooManyHeaders`
    and `receive_header` returns the io error while leaving the previously
    published response — headers included — in place. -/
theorem c9_headers_can_survive_the_overflow_error :
    bytesBegins c9PartialBuf c9FullBuf = true ∧
    receiveHeader .receivingHeader none c9PartialBuf = (some c9PartialResp, .pendingMore) ∧
    receiveHeader .receivingHeader (some c9PartialResp) c9FullBuf
      = (some c9PartialResp, .ioError .tooManyHeaders) ∧
    c9PartialResp.headers = some [(bytesOf "A", bytesOf "1")] :=
  ⟨by decide, by rfl, by rfl, rfl⟩

/-- **C9 (amended).** A response carrying more than 16 header fields
    overflows the fixed 16-slot `httparse` header array, and whenever the
    parser fails, `receive_header` surfaces the failure as an io error from
    the read path and leaves the previously recorded response unchanged — so
    the step ends with an error, and `response.headers` is absent exactly
    when no earlier partial parse had already populated it.  (The second
    conjunct checks the 17-header buffer concretely.) -/
theorem c9_overflow_surfaces_io_error_response_unchanged
    (buf : Bytes) (st : RState) (prev : Option RecvOut) (e : HError)
    (h : httparseResponse buf = .error e) :
    receiveHeader st prev buf = (prev, .ioError e) ∧
    httparseResponse c9FullBuf = .error .tooManyHeaders := by
  constructor
  · unfold receiveHeader
    rw [h]
  · rfl

/-- Witness for `c9_overflow_surfaces_io_error_response_unchanged`: on the
    17-header response arriving in a single read, the parser reports
    `TooManyHeaders`, `receive_header` yields the io error, and the response
    record (never populated) stays absent. -/
theorem c9_overflow_surfaces_io_error_response_unchanged_witness :
    receiveHeader .receivingHeader none c9FullBuf = (none, .ioError .tooManyHeaders) :=
  (c9_overflow_surfaces_io_error_response_unchanged c9FullBuf .receivingHeader none
    .tooManyHeaders (by rfl)).1

/-! ## `TLSRunner::new` and the offered ALPN (src/src/exec/tls.rs lines 57-91,
    src/src/exec/http.rs lines 126-143) -/

/-- The TLS request parameters handed to `TLSRunner::new` (host for SNI, and
    the plan's ordered ALPN list). -/
structure TLSRequestParams where
  host : String
  port : Nat
  alpn : List Bytes
  deriving DecidableEq, Repr

/-- The relevant field of a `rustls::ClientConfig`.  The builder chain
    `ClientConfig::builder().with_safe_defaults()
    .with_root_certificates(..).with_no_client_auth()` produces a config whose
    `alpn_protocols` is the empty vector. -/
structure RustlsClientConfig where
  alpnProtocols : List Bytes
  deriving DecidableEq, Repr

/-- Embedding of the client-config construction in `TLSRunner::new`
    (tls.rs lines 59-71): the config is built from the builder defaults with
    the webpki roots and no client auth, and `alpn_protocols` is never
    assigned afterwards — the request's `alpn` list is not read. -/
def tlsRunnerClientConfig (_req : TLSRequestParams) : RustlsClientConfig :=
  { alpnProtocols := [] }

/-- The ALPN list `HttpRunner::new` puts into the TLS plan for an `https` URL
    (http.rs line 139). -/
def httpRunnerTlsAlpn : List Bytes := [bytesOf "http/1.1"]

/-- **C7.** The claim states that the TLS client offers the ALPN protocols
    exactly as listed in the plan's ALPN list, in order.  The code violates
    this: `TLSRunner::new` builds the `rustls::ClientConfig` without ever
    assigning `alpn_protocols`, so the ClientHello offers no ALPN at all.
    Evaluated at the `https` step input, whose plan ALPN list is
    `["http/1.1"]`: the offered list is `[]`, which differs from the plan
    list. -/
theorem c7_alpn_list_never_offered :
    (tlsRunnerClientConfig
        { host := "example.com", port := 443, alpn := httpRunnerTlsAlpn }).alpnProtocols
      = [] ∧
    httpRunnerTlsAlpn = [bytesOf "http/1.1"] ∧
    (tlsRunnerClientConfig
        { host := "example.com", port := 443, alpn := httpRunnerTlsAlpn }).alpnProtocols
      ≠ httpRunnerTlsAlpn :=
  ⟨rfl, rfl, by decide⟩

/-! ## `Http1Runner` timing fields and `complete`
    (src/src/exec/http1.rs lines 27-33, 505-572)

    Instants are naturals on a monotonic clock; `Instant` subtraction is
    truncated `Nat` subtraction (saturating, as `duration_since` saturates at
    zero). -/

/-- The `Instant` fields of `Http1Runner` (http1.rs lines 27-33) together
    with the `start_time` carried inside the active state. -/
structure Http1Times where
  startTime : Nat
  reqHeaderStart : Option Nat := none
  reqBodyStart : Option Nat := none
  reqEnd : Option Nat := none
  respStart : Option Nat := none
  respHeaderEnd : Option Nat := none
  firstRead : Option Nat := none
  endTime : Option Nat := none
  deriving DecidableEq, Repr

/-- `let end_time = self.end_time.unwrap_or_else(Instant::now)` in
    `complete` (http1.rs line 532); `now` is the instant of the call. -/
def completeEnd (t : Http1Times) (now : Nat) : Nat := t.endTime.getD now

/-- `req.duration = self.req_end_time.unwrap_or(end_time) - start_time`
    (http1.rs lines 535-536). -/
def requestDuration (t : Http1Times) (now : Nat) : Nat :=
  t.reqEnd.getD (completeEnd t now) - t.startTime

/-- `self.out.duration = end_time - start_time` (http1.rs line 571). -/
def overallDuration (t : Http1Times) (now : Nat) : Nat :=
  completeEnd t now - t.startTime

/-- `resp.duration = end_time - resp_start_time` (http1.rs lines 555-561);
    defined when the response (and hence `resp_start_time`) is present. -/
def responseDuration (t : Http1Times) (now : Nat) : Option Nat :=
  t.respStart.map fun rs => completeEnd t now - rs

/-- `resp.header_duration = resp_header_end_time - resp_start_time`
    (http1.rs lines 562-567). -/
def responseHeaderDuration (t : Http1Times) : Option Nat :=
  match t.respHeaderEnd, t.respStart with
  | some he, some rs => some (he - rs)
  | _, _ => none

/-- `resp.time_to_first_byte = first_read - resp_start_time`, assembled in
    `receive_header` (http1.rs lines 296-306) and left untouched by
    `complete`. -/
def responseTtfb (t : Http1Times) : Option Nat :=
  match t.firstRead, t.respStart with
  | some fr, some rs => some (fr - rs)
  | _, _ => none

/-- **C8.** For a completed HTTP/1 step whose output carries the response
    timing fields, the durations computed by `complete` satisfy
    `0 ≤ ttfb ≤ header_duration ≤ duration` and
    `request.duration ≤ overall duration` (the first bound is inherent:
    durations are saturating `Instant` differences, modelled by truncated
    `Nat` subtraction).  The hypotheses record the program order of the
    timestamp assignments: `resp_start_time` is set before the first byte is
    read (http1.rs lines 102-104, 486 precede 128-130), `first_read` before
    `resp_header_end_time` (line 128 precedes line 136), which precedes the
    end of the step; `req_end_time` is never assigned (see C10). -/
theorem c8_durations_are_ordered
    (t : Http1Times) (now rs fr he : Nat)
    (hrs : t.respStart = some rs) (hfr : t.firstRead = some fr)
    (hhe : t.respHeaderEnd = some he) (hre : t.reqEnd = none)
    (h1 : rs ≤ fr) (h2 : fr ≤ he) (h3 : he ≤ completeEnd t now) :
    responseTtfb t = some (fr - rs) ∧
    rs + (fr - rs) = fr ∧
    responseHeaderDuration t = some (he - rs) ∧
    responseDuration t now = some (completeEnd t now - rs) ∧
    fr - rs ≤ he - rs ∧
    he - rs ≤ completeEnd t now - rs ∧
    requestDuration t now ≤ overallDuration t now := by
  refine ⟨?_, ?_, ?_, ?_, ?_, ?_, ?_⟩
  · simp [responseTtfb, hfr, hrs]
  · exact Nat.add_sub_cancel' h1
  · simp [responseHeaderDuration, hhe, hrs]
  · simp [responseDuration, hrs]
  · exact Nat.sub_le_sub_right h2 rs
  · exact Nat.sub_le_sub_right h3 rs
  · simp [requestDuration, overallDuration, hre]

/-- Concrete timestamps for the C8 witness. -/
def c8Times : Http1Times :=
  { startTime := 0
    reqHeaderStart := some 1
    reqBodyStart := some 2
    reqEnd := none
    respStart := some 10
    respHeaderEnd := some 12
    firstRead := some 11
    endTime := some 20 }

/-- Witness for `c8_durations_are_ordered` at concrete timestamps
    (`resp_start = 10`, `first_read = 11`, `resp_header_end = 12`,
    `end_time = 20`, `complete` called at instant 25). -/
theorem c8_durations_are_ordered_witness :
    responseTtfb c8Times = some (11 - 10) ∧
    10 + (11 - 10) = 11 ∧
    responseHeaderDuration c8Times = some (12 - 10) ∧
    responseDuration c8Times 25 = some (completeEnd c8Times 25 - 10) ∧
    11 - 10 ≤ 12 - 10 ∧
    12 - 10 ≤ completeEnd c8Times 25 - 10 ∧
    requestDuration c8Times 25 ≤ overallDuration c8Times 25 :=
  c8_durations_are_ordered c8Times 25 10 11 12 rfl rfl rfl rfl
    (by decide) (by decide) (by decide)

/-! ## `req_end_time` is never assigned (C10)

    The events below enumerate every assignment to an `Instant` field of
    `Http1Runner` in src/src/exec/http1.rs.  No statement in the file assigns
    `req_end_time`: it is initialised to `None` in `new` (line 218) and only
    ever read (line 536). -/

/-- One timestamp assignment performed somewhere in http1.rs. -/
inductive TsEvent
  | setReqHeaderStart (t : Nat)   -- line 395 (unconditional)
  | setReqBodyStart (t : Nat)     -- lines 163-165 (only if unset)
  | setRespStartIfUnset (t : Nat) -- lines 102-104 (only if unset)
  | setRespStartExec (t : Nat)    -- line 486 (unconditional)
  | setRespHeaderEnd (t : Nat)    -- line 136 (unconditional)
  | setFirstRead (t : Nat)        -- lines 128-130 (only if unset)
  | setEndTime (t : Nat)          -- line 194 (unconditional)
  deriving DecidableEq, Repr

/-- Apply one timestamp assignment. -/
def applyTsEvent (ts : Http1Times) : TsEvent → Http1Times
  | .setReqHeaderStart t => { ts with reqHeaderStart := some t }
  | .setReqBodyStart t =>
    if ts.reqBodyStart.isNone then { ts with reqBodyStart := some t } else ts
  | .setRespStartIfUnset t =>
    if ts.respStart.isNone then { ts with respStart := some t } else ts
  | .setRespStartExec t => { ts with respStart := some t }
  | .setRespHeaderEnd t => { ts with respHeaderEnd := some t }
  | .setFirstRead t =>
    if ts.firstRead.isNone then { ts with firstRead := some t } else ts
  | .setEndTime t => { ts with endTime := some t }

/-- The timestamp fields as initialised by `Http1Runner::new`
    (http1.rs lines 216-222): everything `None`; `startTime` is the
    `Instant::now()` stamped when entering `SendingHeader`. -/
def initTimes (startTime : Nat) : Http1Times := { startTime := startTime }

/-- The timestamp fields after any run of the runner, i.e. after any sequence
    of the assignments that occur in http1.rs. -/
def replayTs (startTime : Nat) (evs : List TsEvent) : Http1Times :=
  evs.foldl applyTsEvent (initTimes startTime)

/-- No event assigns `req_end_time`. -/
theorem applyTsEvent_reqEnd (ts : Http1Times) (e : TsEvent) :
    (applyTsEvent ts e).reqEnd = ts.reqEnd := by
  cases e <;> simp [applyTsEvent] <;> split <;> rfl

/-- Along any run, `req_end_time` stays `None`. -/
theorem replayTs_reqEnd_none (startTime : Nat) (evs : List TsEvent) :
    (replayTs startTime evs).reqEnd = none := by
  suffices h : ∀ ts : Http1Times, ts.reqEnd = none →
      (evs.foldl applyTsEvent ts).reqEnd = none from
    h (initTimes startTime) rfl
  induction evs with
  | nil => intro ts hts; simpa using hts
  | cons e rest ih =>
    intro ts hts
    simpa using ih (applyTsEvent ts e) ((applyTsEvent_reqEnd ts e).trans hts)

/-- **C10.** In every completed run, `request.duration` equals the overall
    step duration exactly: both are `end_time - start_time`, because
    `req_end_time` is never assigned anywhere in http1.rs — `complete` falls
    back from `self.req_end_time.unwrap_or(end_time)` to the same `end_time`
    used for `out.duration`. -/
theorem c10_request_duration_equals_overall
    (startTime : Nat) (evs : List TsEvent) (now : Nat) :
    requestDuration (replayTs startTime evs) now
      = overallDuration (replayTs startTime evs) now := by
  unfold requestDuration overallDuration
  rw [replayTs_reqEnd_none]
  rfl

end ApiVuln
